import Mathlib

/-!
Shallow embedding of the atracks metrics-aggregation and reputation core.

Sources embedded (names kept where Lean allows):
 - src/src/services/metrics-store.ts : MetricsStoreService (registerAgent's
   zeroed metrics, logTrade, validateApiKey)
 - src/src/services/reputation.ts    : ReputationService (generateProof,
   verifyProof, computeVerifiedReputation's proof filtering,
   calculateStarRating, getLeaderboardWithStars, STAR_THRESHOLDS)
 - src/unnamed/part_009 (cap402 client) : computeMetricsScore,
   computeVerifiedScore fallback path, proveWinRate response handling

JS numbers are modelled as rationals (ℚ), timestamps as integers (ℤ),
counters as naturals (ℕ).  JS Math.round is round-half-up.
-/

/-- JS Math.round: rounds to the nearest integer, halves towards +∞. -/
def jsRound (q : ℚ) : ℤ := ⌊q + 1/2⌋

/-- PerformanceMetrics record (src/src/services/metrics-store.ts).  The source
field sharpe_ratio is rendered here as sharpe_proxy. -/
structure PerformanceMetrics where
  total_trades : ℕ
  winning_trades : ℕ
  total_pnl_usd : ℚ
  max_drawdown_bps : ℤ
  sharpe_proxy : ℚ
  avg_execution_time_ms : ℚ
  uptime_percentage : ℚ
  last_updated : ℤ
deriving DecidableEq, Repr

/-- The zeroed metrics installed by registerAgent (metrics-store.ts lines
161-173): all aggregates 0, uptime 100. -/
def initialMetrics (now : ℤ) : PerformanceMetrics :=
  { total_trades := 0
    winning_trades := 0
    total_pnl_usd := 0
    max_drawdown_bps := 0
    sharpe_proxy := 0
    avg_execution_time_ms := 0
    uptime_percentage := 100
    last_updated := now }

/-- One trade, as consumed by logTrade (fields other than pnl and execution
time do not affect the aggregate update). -/
structure TradeRecord where
  agent_id : String
  pnl_usd : ℚ
  execution_time_ms : ℚ
deriving DecidableEq, Repr

/-- The in-place aggregate update performed by logTrade (metrics-store.ts
lines 239-261), on the metrics of an existing agent:
 - total_trades += 1
 - winning_trades += 1 when pnl_usd > 0
 - total_pnl_usd += pnl_usd
 - avg_execution_time_ms := (avg * (total - 1) + exec) / total  (new total)
 - sharpe := (winning / total) * 2
 - when pnl_usd < 0, max_drawdown_bps := max old (round |pnl * 100|). -/
def logTradeUpdate (m : PerformanceMetrics) (t : TradeRecord) (now : ℤ) :
    PerformanceMetrics :=
  let total : ℕ := m.total_trades + 1
  let winning : ℕ :=
    if t.pnl_usd > 0 then m.winning_trades + 1 else m.winning_trades
  let avg : ℚ :=
    (m.avg_execution_time_ms * ((total : ℚ) - 1) + t.execution_time_ms) /
      (total : ℚ)
  let winRate : ℚ := (winning : ℚ) / (total : ℚ)
  let drawdown : ℤ :=
    if t.pnl_usd < 0 then
      max m.max_drawdown_bps (jsRound |t.pnl_usd * 100|)
    else m.max_drawdown_bps
  { total_trades := total
    winning_trades := winning
    total_pnl_usd := m.total_pnl_usd + t.pnl_usd
    max_drawdown_bps := drawdown
    sharpe_proxy := winRate * 2
    avg_execution_time_ms := avg
    uptime_percentage := m.uptime_percentage
    last_updated := now }

/-- Folding a sequence of logTrade calls over a metrics state (each call uses
the same clock value, which no aggregate other than last_updated reads). -/
def applyTrades (m : PerformanceMetrics) (ts : List TradeRecord) (now : ℤ) :
    PerformanceMetrics :=
  ts.foldl (fun acc t => logTradeUpdate acc t now) m

/-- Win rate as a percentage, as computed by getWinRate (metrics-store.ts
lines 334-338): 0 when total_trades = 0. -/
def winRatePct (m : PerformanceMetrics) : ℚ :=
  if m.total_trades = 0 then 0
  else ((m.winning_trades : ℚ) / (m.total_trades : ℚ)) * 100

/-! ## Proof ledger (src/src/services/reputation.ts) -/

/-- ReputationProof record as stored in proofsStore (reputation.ts lines
233-243).  public_outputs is kept as an opaque serialized value. -/
structure ReputationProof where
  proof_id : String
  agent_id : String
  proof_type : String
  proof_data : String
  verification_key : String
  public_outputs : List (String × ℚ)
  created_at : ℤ
  expires_at : ℤ
  circuit_hash : String
deriving DecidableEq, Repr

/-- The proof ledger: the in-memory proofsStore map, modelled as a lookup
function together with the list of stored proofs used for iteration. -/
structure ProofLedger where
  lookup : String → Option ReputationProof
  entries : List ReputationProof

/-- Error taxonomy surfaced by the ledger operations. -/
inductive LedgerError where
  | notFound : LedgerError
  | expired : LedgerError
deriving DecidableEq, Repr

/-- Result of the collaborator's proof verifier. -/
structure VerifyOutcome where
  valid : Bool
  verification_evidence : String
deriving DecidableEq, Repr

/-- verifyProof (reputation.ts lines 273-288): NotFound when the id is
unknown; Expired when now is strictly past expires_at; otherwise delegates
to the collaborator's verifier with the stored proof data, key and public
outputs. -/
def verifyProof (ledger : ProofLedger) (now : ℤ)
    (verifier : String → String → List (String × ℚ) → VerifyOutcome)
    (proofId : String) : Except LedgerError VerifyOutcome :=
  match ledger.lookup proofId with
  | none => .error .notFound
  | some proof =>
    if now > proof.expires_at then .error .expired
    else .ok (verifier proof.proof_data proof.verification_key
        proof.public_outputs)

/-- A cap402 /invoke response as seen by the client after its error handling:
a success flag plus optional output fields (response.outputs may be absent,
and each field of it may be absent). -/
structure CollabOutputs where
  proof : Option String
  verification_key : Option String
  meets_win_rate : Option Bool
  reputation_score : Option ℚ
  tier : Option String
  mpc_attestation : Option String
  valid : Option Bool
  verification_evidence : Option String
deriving DecidableEq, Repr

/-- Collaborator response wrapper: invoke either yields a (possibly
unsuccessful) response or the transport throws; the response case. -/
structure CollabResponse where
  success : Bool
  outputs : Option CollabOutputs
deriving DecidableEq, Repr

/-- cap402 proveWinRate (part_009 lines 465-499): computes the threshold
check locally, sends the request, and reads proof and key from the response
with empty-string defaults; meets_threshold prefers the response's value and
falls back to the local check. -/
def proveWinRate (resp : CollabResponse) (actualWinRate threshold : ℚ) :
    String × String × Bool :=
  let meetsThreshold : Bool := decide (actualWinRate ≥ threshold)
  ((resp.outputs.bind (fun o => o.proof)).getD "",
   (resp.outputs.bind (fun o => o.verification_key)).getD "",
   (resp.outputs.bind (fun o => o.meets_win_rate)).getD meetsThreshold)

/-- generateProof for proof_type win_rate (reputation.ts lines 156-268):
NotFound when the agent has no metrics; otherwise calls the collaborator
(whose response is a parameter here), then builds a ReputationProof with
created_at = now, expires_at = now + 24h, stores it in the ledger under the
freshly generated id, and returns it. -/
def generateProofWinRate (agentId : String)
    (metricsOf : Option PerformanceMetrics)
    (resp : CollabResponse) (threshold : ℚ) (now : ℤ) (freshId : String)
    (ledger : ProofLedger) :
    Except LedgerError (ReputationProof × ProofLedger) :=
  match metricsOf with
  | none => .error .notFound
  | some m =>
    let winRate := winRatePct m
    let pr := proveWinRate resp winRate threshold
    let proof : ReputationProof :=
      { proof_id := freshId
        agent_id := agentId
        proof_type := "win_rate"
        proof_data := pr.1
        verification_key := pr.2.1
        public_outputs := [("threshold", threshold),
                           ("meets_threshold", if pr.2.2 then 1 else 0)]
        created_at := now
        expires_at := now + 24 * 60 * 60 * 1000
        circuit_hash := "noir_win_rate_v1" }
    .ok (proof,
      { lookup := fun pid => if pid = freshId then some proof
                             else ledger.lookup pid
        entries := proof :: ledger.entries })

/-! ## Scoring (cap402 client, src/unnamed/part_009) -/

/-- computeMetricsScore (part_009 lines 353-370): capped components for
trades, win rate, pnl, plus a banded execution-time component, rounded after
clipping the sum at 100. -/
def computeMetricsScore (m : PerformanceMetrics) : ℤ :=
  let tradesScore : ℚ := min ((m.total_trades : ℚ) / 200 * 30) 30
  let winRate : ℚ :=
    if m.total_trades > 0 then (m.winning_trades : ℚ) / (m.total_trades : ℚ)
    else 0
  let winRateScore : ℚ := min (winRate * 40) 40
  let pnlScore : ℚ := min (max m.total_pnl_usd 0 / 10000 * 20) 20
  let execScore : ℚ :=
    if m.avg_execution_time_ms ≤ 50 then 10
    else if m.avg_execution_time_ms ≤ 100 then 7
    else if m.avg_execution_time_ms ≤ 200 then 4
    else 0
  jsRound (min (tradesScore + winRateScore + pnlScore + execScore) 100)

/-- The local fallback score of computeVerifiedScore (part_009 lines
683-688): metrics-based score (or the 50/30 placeholder when no plaintext
metrics were passed), plus a proof bonus of 5 per proof capped at 15, the
total clipped at 100. -/
def fallbackScore (encryptedMetrics : String)
    (proofCount : ℕ) (metricsOf : Option PerformanceMetrics) : ℤ :=
  let metricsScore : ℤ :=
    match metricsOf with
    | some m => computeMetricsScore m
    | none => if encryptedMetrics ≠ "" then 50 else 30
  let proofBonus : ℤ := min ((proofCount : ℤ) * 5) 15
  min (metricsScore + proofBonus) 100

/-- The fallback tier ladder of computeVerifiedScore (part_009 lines
690-695). -/
def fallbackTier (score : ℤ) : String :=
  if score ≥ 90 then "diamond"
  else if score ≥ 80 then "platinum"
  else if score ≥ 70 then "gold"
  else if score ≥ 60 then "silver"
  else if score ≥ 50 then "bronze"
  else "unverified"

/-- Result of computeVerifiedScore. -/
structure ScoreResult where
  reputation_score : ℚ
  tier : String
  mpc_attestation : String
  mode : String
deriving DecidableEq, Repr

/-- computeVerifiedScore (part_009 lines 645-706): when the collaborator's
response is successful and carries a reputation_score, that result is used
verbatim; otherwise the deterministic local fallback is computed.  tsTag
stands for the hex timestamp baked into the locally synthesized
attestation. -/
def computeVerifiedScore (resp : CollabResponse) (agentId : String)
    (encryptedMetrics : String) (proofs : List String)
    (metricsOf : Option PerformanceMetrics) (tsTag : String) : ScoreResult :=
  if h : resp.success = true ∧
      (resp.outputs.bind (fun o => o.reputation_score)).isSome then
    { reputation_score := (resp.outputs.bind (fun o => o.reputation_score)).get h.2
      tier := (resp.outputs.bind (fun o => o.tier)).getD "unverified"
      mpc_attestation := (resp.outputs.bind (fun o => o.mpc_attestation)).getD ""
      mode := "live" }
  else
    let score := fallbackScore encryptedMetrics proofs.length metricsOf
    { reputation_score := (score : ℚ)
      tier := fallbackTier score
      mpc_attestation := "mpc_" ++ agentId.take 8 ++ "_" ++ tsTag
      mode := if resp.success then "live" else "computed" }

/-! ## Reputation engine (src/src/services/reputation.ts) -/

/-- Agent record as visible to the reputation engine. -/
structure Agent where
  agent_id : String
  name : String
deriving DecidableEq, Repr

/-- VerifiedReputation record (reputation.ts lines 327-335); the badge set is
kept as the list of badge ids. -/
structure VerifiedReputation where
  agent_id : String
  reputation_score : ℚ
  tier : String
  badges : List String
  verified_at : ℤ
deriving DecidableEq, Repr

/-- calculateBadges over the BADGE_DEFINITIONS catalog (reputation.ts lines
118-149, 378-393): the ids of the currently satisfied predicates, in catalog
order. -/
def calculateBadges (m : PerformanceMetrics) : List String :=
  (if m.total_trades ≥ 1 then ["first_trade"] else []) ++
  (if m.total_pnl_usd > 0 then ["profitable"] else []) ++
  (if m.total_trades > 0 ∧
      (m.winning_trades : ℚ) / (m.total_trades : ℚ) ≥ 0.6 then ["consistent"]
   else []) ++
  (if m.total_trades ≥ 100 then ["veteran"] else []) ++
  (if m.total_pnl_usd ≥ 10000 then ["whale"] else []) ++
  (if m.avg_execution_time_ms < 100 then ["speed_demon"] else [])

/-- The unexpired proofs of an agent, as collected by
computeVerifiedReputation (reputation.ts lines 307-309): stored proofs of
that agent whose expires_at is strictly in the future. -/
def unexpiredProofs (ledger : ProofLedger) (agentId : String) (now : ℤ) :
    List ReputationProof :=
  ledger.entries.filter
    (fun p => p.agent_id == agentId && decide (now < p.expires_at))

/-- computeVerifiedReputation (reputation.ts lines 293-366): NotFound when
the agent or its metrics are missing; otherwise asks the collaborator for a
score over the encrypted handle and the unexpired proofs (its response is the
resp parameter) and records the resulting VerifiedReputation. -/
def computeVerifiedReputation (resp : CollabResponse) (tsTag : String)
    (agentOf : Option Agent) (metricsOf : Option PerformanceMetrics)
    (encryptedData : String) (ledger : ProofLedger) (agentId : String)
    (now : ℤ) : Except LedgerError VerifiedReputation :=
  match agentOf, metricsOf with
  | none, _ => .error .notFound
  | some _, none => .error .notFound
  | some _, some m =>
    let proofs := (unexpiredProofs ledger agentId now).map
      (fun p => p.proof_data)
    let result := computeVerifiedScore resp agentId encryptedData proofs
      (some m) tsTag
    .ok { agent_id := agentId
          reputation_score := result.reputation_score
          tier := result.tier
          badges := calculateBadges m
          verified_at := now }

/-! ## Star rating (reputation.ts lines 101-106, 443-519) -/

/-- One band's thresholds from the STAR_THRESHOLDS table. -/
structure BandThresholds where
  min_score : ℚ
  min_trades : ℕ
  min_win_rate : ℚ
  min_pnl : ℚ
deriving DecidableEq, Repr

/-- The four named bands of the star ladder. -/
structure StarThresholdTable where
  three_star : BandThresholds
  two_star : BandThresholds
  one_star : BandThresholds
  verified : BandThresholds
deriving DecidableEq, Repr

/-- STAR_THRESHOLDS (reputation.ts lines 101-106). -/
def STAR_THRESHOLDS : StarThresholdTable :=
  { three_star := ⟨95, 1000, 75, 10000⟩
    two_star := ⟨85, 500, 68, 5000⟩
    one_star := ⟨75, 200, 62, 1000⟩
    verified := ⟨50, 25, 50, 0⟩ }

/-- The rating labels returned by calculateStarRating. -/
inductive StarBand where
  | three_star : StarBand
  | two_star : StarBand
  | one_star : StarBand
  | verified : StarBand
  | unverified : StarBand
deriving DecidableEq, Repr

/-- Result of calculateStarRating. -/
structure StarRating where
  stars : ℕ
  rating : StarBand
  display : String
  description : String
deriving DecidableEq, Repr

/-- The win-rate percentage computed inside calculateStarRating
(reputation.ts line 463): 0 when the agent has no trades. -/
def starWinRate (m : PerformanceMetrics) : ℚ :=
  if m.total_trades > 0 then
    (m.winning_trades : ℚ) / (m.total_trades : ℚ) * 100
  else 0

/-- calculateStarRating (reputation.ts lines 443-519): unverified when the
agent has no VerifiedReputation or no metrics; otherwise the bands are tested
from three_star down, first match winning.  The three_star, two_star and
one_star tests require score, trades, win rate and pnl; the verified test
reads only min_score and min_trades from its table row. -/
def calculateStarRating (verifiedOf : Option VerifiedReputation)
    (metricsOf : Option PerformanceMetrics) : StarRating :=
  match verifiedOf, metricsOf with
  | some v, some m =>
    let score := v.reputation_score
    let trades := m.total_trades
    let winRate : ℚ := starWinRate m
    let pnl := m.total_pnl_usd
    if score ≥ STAR_THRESHOLDS.three_star.min_score ∧
        trades ≥ STAR_THRESHOLDS.three_star.min_trades ∧
        winRate ≥ STAR_THRESHOLDS.three_star.min_win_rate ∧
        pnl ≥ STAR_THRESHOLDS.three_star.min_pnl then
      ⟨3, .three_star, "◆◆◆", "Exceptional"⟩
    else if score ≥ STAR_THRESHOLDS.two_star.min_score ∧
        trades ≥ STAR_THRESHOLDS.two_star.min_trades ∧
        winRate ≥ STAR_THRESHOLDS.two_star.min_win_rate ∧
        pnl ≥ STAR_THRESHOLDS.two_star.min_pnl then
      ⟨2, .two_star, "◆◆", "Excellent"⟩
    else if score ≥ STAR_THRESHOLDS.one_star.min_score ∧
        trades ≥ STAR_THRESHOLDS.one_star.min_trades ∧
        winRate ≥ STAR_THRESHOLDS.one_star.min_win_rate ∧
        pnl ≥ STAR_THRESHOLDS.one_star.min_pnl then
      ⟨1, .one_star, "◆", "Very Good"⟩
    else if score ≥ STAR_THRESHOLDS.verified.min_score ∧
        trades ≥ STAR_THRESHOLDS.verified.min_trades then
      ⟨0, .verified, "✓", "Verified"⟩
    else
      ⟨0, .unverified, "—", "Not yet verified"⟩
  | _, _ => ⟨0, .unverified, "—", "Not yet verified"⟩

/-! ## Leaderboard (reputation.ts lines 575-615) -/

/-- One row of getLeaderboardWithStars. -/
structure LeaderboardEntry where
  agent_id : String
  agent_name : String
  reputation_score : ℚ
  star_rating : ℕ
  total_trades : ℕ
deriving DecidableEq, Repr

/-- The sort comparator of getLeaderboardWithStars (reputation.ts lines
610-614), as the relation "a may precede b": strictly more stars first, ties
broken by reputation score descending. -/
def leaderboardLE (a b : LeaderboardEntry) : Bool :=
  if a.star_rating = b.star_rating then
    decide (b.reputation_score ≤ a.reputation_score)
  else decide (b.star_rating < a.star_rating)

/-- The row built for one agent by getLeaderboardWithStars (reputation.ts
lines 589-608): missing VerifiedReputation contributes score 0, missing
metrics contribute 0 trades. -/
def mkLeaderboardEntry (reps : String → Option VerifiedReputation)
    (mets : String → Option PerformanceMetrics) (a : Agent) :
    LeaderboardEntry :=
  let v := reps a.agent_id
  let sr := calculateStarRating v (mets a.agent_id)
  { agent_id := a.agent_id
    agent_name := a.name
    reputation_score := (v.map (fun r => r.reputation_score)).getD 0
    star_rating := sr.stars
    total_trades := ((mets a.agent_id).map (fun m => m.total_trades)).getD 0 }

/-- getLeaderboardWithStars (reputation.ts lines 575-615): one row per
registered agent, rows with score 0 filtered out, the rest sorted by the
stars-then-score comparator. -/
def getLeaderboardWithStars (agents : List Agent)
    (reps : String → Option VerifiedReputation)
    (mets : String → Option PerformanceMetrics) : List LeaderboardEntry :=
  (((agents.map (mkLeaderboardEntry reps mets)).filter
      (fun e => decide (e.reputation_score > 0))).mergeSort leaderboardLE)

/-! ## Credential vault (metrics-store.ts lines 224-228, part_011) -/

/-- Stored agent record: the registry entry kept by the metrics store, whose
api_key_hash may be absent. -/
structure StoredAgent where
  agent_id : String
  name : String
  api_key_hash : Option String
deriving DecidableEq, Repr

/-- validateApiKey (metrics-store.ts lines 224-228): false when the agent is
unknown or has no stored hash; otherwise delegates to the hashing
primitive's verifier (a parameter here, modelling bcrypt.compare). -/
def validateApiKey (agentStore : String → Option StoredAgent)
    (verifyKey : String → String → Bool)
    (agentId apiKey : String) : Bool :=
  match agentStore agentId with
  | none => false
  | some agent =>
    match agent.api_key_hash with
    | none => false
    | some h => verifyKey apiKey h

/-! ## Helper lemmas on the trade update -/

lemma logTradeUpdate_total (m : PerformanceMetrics) (t : TradeRecord)
    (now : ℤ) : (logTradeUpdate m t now).total_trades = m.total_trades + 1 :=
  rfl

lemma logTradeUpdate_winning (m : PerformanceMetrics) (t : TradeRecord)
    (now : ℤ) : (logTradeUpdate m t now).winning_trades =
      if t.pnl_usd > 0 then m.winning_trades + 1 else m.winning_trades :=
  rfl

lemma logTradeUpdate_pnl (m : PerformanceMetrics) (t : TradeRecord)
    (now : ℤ) : (logTradeUpdate m t now).total_pnl_usd =
      m.total_pnl_usd + t.pnl_usd :=
  rfl

lemma logTradeUpdate_avg (m : PerformanceMetrics) (t : TradeRecord)
    (now : ℤ) : (logTradeUpdate m t now).avg_execution_time_ms =
      (m.avg_execution_time_ms * (((m.total_trades + 1 : ℕ) : ℚ) - 1) +
        t.execution_time_ms) / ((m.total_trades + 1 : ℕ) : ℚ) :=
  rfl

lemma logTradeUpdate_drawdown (m : PerformanceMetrics) (t : TradeRecord)
    (now : ℤ) : (logTradeUpdate m t now).max_drawdown_bps =
      if t.pnl_usd < 0 then
        max m.max_drawdown_bps (jsRound |t.pnl_usd * 100|)
      else m.max_drawdown_bps :=
  rfl

lemma applyTrades_nil (m : PerformanceMetrics) (now : ℤ) :
    applyTrades m [] now = m := rfl

lemma applyTrades_cons (m : PerformanceMetrics) (t : TradeRecord)
    (ts : List TradeRecord) (now : ℤ) :
    applyTrades m (t :: ts) now = applyTrades (logTradeUpdate m t now) ts now :=
  rfl

lemma winning_le_total_step (m : PerformanceMetrics) (t : TradeRecord)
    (now : ℤ) (h : m.winning_trades ≤ m.total_trades) :
    (logTradeUpdate m t now).winning_trades ≤
      (logTradeUpdate m t now).total_trades := by
  simp only [logTradeUpdate_total, logTradeUpdate_winning]
  split <;> omega

lemma winning_le_total_applyTrades (ts : List TradeRecord) (now : ℤ) :
    ∀ m : PerformanceMetrics, m.winning_trades ≤ m.total_trades →
      (applyTrades m ts now).winning_trades ≤
        (applyTrades m ts now).total_trades := by
  induction ts with
  | nil => intro m h; simpa [applyTrades_nil] using h
  | cons t ts ih =>
    intro m h
    rw [applyTrades_cons]
    exact ih _ (winning_le_total_step m t now h)

/-- The ten-trade scenario of spec section 8. -/
def scenarioTrades : List TradeRecord :=
  [⟨"a", 150, 85⟩, ⟨"a", -50, 120⟩, ⟨"a", 200, 95⟩, ⟨"a", 75, 110⟩,
   ⟨"a", -25, 88⟩, ⟨"a", 300, 92⟩, ⟨"a", 125, 78⟩, ⟨"a", -100, 105⟩,
   ⟨"a", 180, 82⟩, ⟨"a", 250, 90⟩]

/-- C4: for every sequence of logTrade calls applied to a freshly registered
agent's zeroed metrics, 0 ≤ winning_trades ≤ total_trades holds (hence after
every step, every prefix being such a sequence), and the derived
win rate winning/total * 100 lies in [0, 100] whenever total_trades > 0. -/
theorem C4_trade_invariants (ts : List TradeRecord) (t0 now : ℤ) :
    (applyTrades (initialMetrics t0) ts now).winning_trades ≤
      (applyTrades (initialMetrics t0) ts now).total_trades ∧
    ((applyTrades (initialMetrics t0) ts now).total_trades > 0 →
      0 ≤ winRatePct (applyTrades (initialMetrics t0) ts now) ∧
        winRatePct (applyTrades (initialMetrics t0) ts now) ≤ 100) := by
  have hle : (applyTrades (initialMetrics t0) ts now).winning_trades ≤
      (applyTrades (initialMetrics t0) ts now).total_trades :=
    winning_le_total_applyTrades ts now (initialMetrics t0) (by simp [initialMetrics])
  refine ⟨hle, fun hpos => ?_⟩
  set M := applyTrades (initialMetrics t0) ts now with hM
  have hne : M.total_trades ≠ 0 := Nat.pos_iff_ne_zero.mp hpos
  have hT : (0 : ℚ) < (M.total_trades : ℚ) := by exact_mod_cast hpos
  have hdiv : (M.winning_trades : ℚ) / (M.total_trades : ℚ) ≤ 1 :=
    (div_le_one hT).mpr (by exact_mod_cast hle)
  have hdiv0 : (0 : ℚ) ≤ (M.winning_trades : ℚ) / (M.total_trades : ℚ) :=
    div_nonneg (by positivity) (le_of_lt hT)
  constructor
  · rw [winRatePct, if_neg hne]; nlinarith
  · rw [winRatePct, if_neg hne]; nlinarith

lemma scenario_total :
    (applyTrades (initialMetrics 0) scenarioTrades 0).total_trades = 10 := by
  norm_num [applyTrades, scenarioTrades, logTradeUpdate, initialMetrics]

lemma scenario_winning :
    (applyTrades (initialMetrics 0) scenarioTrades 0).winning_trades = 7 := by
  norm_num [applyTrades, scenarioTrades, logTradeUpdate, initialMetrics]

lemma scenario_pnl :
    (applyTrades (initialMetrics 0) scenarioTrades 0).total_pnl_usd = 1105 := by
  norm_num [applyTrades, scenarioTrades, logTradeUpdate, initialMetrics]

lemma scenario_avg :
    (applyTrades (initialMetrics 0) scenarioTrades 0).avg_execution_time_ms
      = 94.5 := by
  norm_num [applyTrades, scenarioTrades, logTradeUpdate, initialMetrics]

lemma scenario_winrate :
    winRatePct (applyTrades (initialMetrics 0) scenarioTrades 0) = 70 := by
  norm_num [winRatePct, applyTrades, scenarioTrades, logTradeUpdate,
    initialMetrics]

/-- C4 witness: the invariant holds concretely after the ten scenario
trades, where the trade count is positive. -/
theorem C4_trade_invariants_witness :
    0 ≤ winRatePct (applyTrades (initialMetrics 0) scenarioTrades 0) ∧
      winRatePct (applyTrades (initialMetrics 0) scenarioTrades 0) ≤ 100 :=
  (C4_trade_invariants scenarioTrades 0 0).2
    (by rw [scenario_total]; norm_num)

/-- C5: logTrade updates the running mean with the pre-update count,
new_avg = (old_avg * old_n + new_value) / (old_n + 1); and on the ten-trade
scenario the aggregates are total 10, winning 7, pnl 1105, average execution
time 94.5, win rate 70%. -/
theorem C5_running_mean_and_scenario :
    (∀ (m : PerformanceMetrics) (t : TradeRecord) (now : ℤ),
      (logTradeUpdate m t now).avg_execution_time_ms =
        (m.avg_execution_time_ms * (m.total_trades : ℚ) +
          t.execution_time_ms) / ((m.total_trades : ℚ) + 1)) ∧
    (applyTrades (initialMetrics 0) scenarioTrades 0).total_trades = 10 ∧
    (applyTrades (initialMetrics 0) scenarioTrades 0).winning_trades = 7 ∧
    (applyTrades (initialMetrics 0) scenarioTrades 0).total_pnl_usd = 1105 ∧
    (applyTrades (initialMetrics 0) scenarioTrades 0).avg_execution_time_ms
      = 94.5 ∧
    winRatePct (applyTrades (initialMetrics 0) scenarioTrades 0) = 70 := by
  refine ⟨fun m t now => ?_, scenario_total, scenario_winning, scenario_pnl,
    scenario_avg, scenario_winrate⟩
  rw [logTradeUpdate_avg]
  push_cast
  ring_nf

/-- The claim's closed form for the drawdown aggregate: the maximum, over
the trades seen so far whose P&L is negative, of round(|pnl| * 100), and 0
when there are none. -/
def specMaxDrawdown (ts : List TradeRecord) : ℤ :=
  ((ts.filter (fun t => decide (t.pnl_usd < 0))).map
    (fun t => jsRound |t.pnl_usd * 100|)).foldl max 0

lemma drawdown_foldl (ts : List TradeRecord) (now : ℤ) :
    ∀ m : PerformanceMetrics, (applyTrades m ts now).max_drawdown_bps =
      ((ts.filter (fun t => decide (t.pnl_usd < 0))).map
        (fun t => jsRound |t.pnl_usd * 100|)).foldl max
        m.max_drawdown_bps := by
  induction ts with
  | nil => intro m; simp [applyTrades_nil]
  | cons t ts ih =>
    intro m
    rw [applyTrades_cons, ih]
    by_cases h : t.pnl_usd < 0
    · simp [List.filter_cons, h, logTradeUpdate_drawdown]
    · simp [List.filter_cons, h, logTradeUpdate_drawdown]

/-- C6: after any sequence of logTrade calls from the zeroed metrics,
max_drawdown_bps equals the maximum over all negative-P&L trades so far of
round(|pnl| * 100) (0 when none), and a single further logTrade call never
decreases it. -/
theorem C6_max_drawdown (ts : List TradeRecord) (t0 now : ℤ)
    (m : PerformanceMetrics) (t : TradeRecord) :
    (applyTrades (initialMetrics t0) ts now).max_drawdown_bps =
      specMaxDrawdown ts ∧
    m.max_drawdown_bps ≤ (logTradeUpdate m t now).max_drawdown_bps := by
  constructor
  · rw [drawdown_foldl, specMaxDrawdown]
    simp [initialMetrics]
  · rw [logTradeUpdate_drawdown]
    split
    · exact le_max_left _ _
    · exact le_refl _

/-- C10: a trade with pnl_usd exactly 0 increments total_trades, leaves
winning_trades unchanged (the winning test is strictly pnl > 0), and leaves
max_drawdown_bps unchanged (the drawdown test is strictly pnl < 0). -/
theorem C10_zero_pnl (m : PerformanceMetrics) (t : TradeRecord) (now : ℤ)
    (h : t.pnl_usd = 0) :
    (logTradeUpdate m t now).total_trades = m.total_trades + 1 ∧
    (logTradeUpdate m t now).winning_trades = m.winning_trades ∧
    (logTradeUpdate m t now).max_drawdown_bps = m.max_drawdown_bps := by
  refine ⟨logTradeUpdate_total m t now, ?_, ?_⟩
  · simp [logTradeUpdate_winning, h]
  · simp [logTradeUpdate_drawdown, h]

/-- C10 witness: a concrete zero-P&L trade on the zeroed metrics. -/
theorem C10_zero_pnl_witness :
    (logTradeUpdate (initialMetrics 0) ⟨"a", 0, 5⟩ 0).total_trades =
      (initialMetrics 0).total_trades + 1 ∧
    (logTradeUpdate (initialMetrics 0) ⟨"a", 0, 5⟩ 0).winning_trades =
      (initialMetrics 0).winning_trades ∧
    (logTradeUpdate (initialMetrics 0) ⟨"a", 0, 5⟩ 0).max_drawdown_bps =
      (initialMetrics 0).max_drawdown_bps :=
  C10_zero_pnl (initialMetrics 0) ⟨"a", 0, 5⟩ 0 rfl

/-- C2: verifyProof fails with NotFound for ids absent from the ledger; for
a stored proof whose expiry is created_at + 24h it fails with Expired for
every call strictly after created_at + 24h, whatever the collaborator's
verifier does; otherwise it returns the collaborator verifier's answer on
the stored proof data, verification key and public outputs. -/
theorem C2_verifyProof (ledger : ProofLedger) (now : ℤ)
    (verifier : String → String → List (String × ℚ) → VerifyOutcome)
    (proofId : String) :
    (ledger.lookup proofId = none →
      verifyProof ledger now verifier proofId = .error .notFound) ∧
    (∀ p : ReputationProof, ledger.lookup proofId = some p →
      p.expires_at = p.created_at + 86400000 →
      now > p.created_at + 86400000 →
      verifyProof ledger now verifier proofId = .error .expired) ∧
    (∀ p : ReputationProof, ledger.lookup proofId = some p →
      ¬ now > p.expires_at →
      verifyProof ledger now verifier proofId =
        .ok (verifier p.proof_data p.verification_key p.public_outputs)) := by
  refine ⟨fun h => ?_, fun p hp hexp hlate => ?_, fun p hp hok => ?_⟩
  · simp [verifyProof, h]
  · have : now > p.expires_at := by rw [hexp]; exact hlate
    simp [verifyProof, hp, this]
  · simp [verifyProof, hp, hok]

/-- The empty proof ledger. -/
def emptyLedger : ProofLedger := ⟨fun _ => none, []⟩

/-- A sample stored proof expiring 24h after creation time 0. -/
def sampleProof : ReputationProof :=
  { proof_id := "p1"
    agent_id := "a"
    proof_type := "win_rate"
    proof_data := "0xproof"
    verification_key := "vk"
    public_outputs := [("threshold", 50)]
    created_at := 0
    expires_at := 86400000
    circuit_hash := "noir_win_rate_v1" }

/-- A one-proof ledger holding sampleProof. -/
def sampleLedger : ProofLedger :=
  ⟨fun pid => if pid = "p1" then some sampleProof else none, [sampleProof]⟩

/-- A collaborator verifier that always accepts, used to instantiate
universally quantified collaborator parameters in witnesses. -/
def acceptAllVerifier : String → String → List (String × ℚ) → VerifyOutcome :=
  fun _ _ _ => ⟨true, "ev"⟩

/-- C2 witness: on a concrete ledger, an unknown id yields NotFound and a
call one millisecond past the 24h expiry yields Expired. -/
theorem C2_verifyProof_witness :
    verifyProof sampleLedger 0 acceptAllVerifier "nope" = .error .notFound ∧
    verifyProof sampleLedger 86400001 acceptAllVerifier "p1" =
      .error .expired := by
  constructor
  · exact (C2_verifyProof sampleLedger 0 acceptAllVerifier "nope").1 rfl
  · exact (C2_verifyProof sampleLedger 86400001 acceptAllVerifier "p1").2.1
      sampleProof rfl rfl (by norm_num [sampleProof])

/-- C8: on an agent with metrics, generateProof succeeds for every
collaborator response (successful or failed), and the returned proof has
created_at = now, expires_at = created_at + 24h (86,400,000 ms), carries the
fresh id, is retrievable from the updated ledger under that id, and no other
ledger binding changes; the freshness assumption is that the generated id is
unused. -/
theorem C8_generateProof (agentId : String) (m : PerformanceMetrics)
    (resp : CollabResponse) (threshold : ℚ) (now : ℤ) (freshId : String)
    (ledger : ProofLedger) (hfresh : ledger.lookup freshId = none) :
    ∃ (p : ReputationProof) (ledger2 : ProofLedger),
      generateProofWinRate agentId (some m) resp threshold now freshId
          ledger = .ok (p, ledger2) ∧
      p.created_at = now ∧
      p.expires_at = p.created_at + 86400000 ∧
      p.proof_id = freshId ∧
      ledger2.lookup freshId = some p ∧
      ledger.lookup freshId = none ∧
      (∀ q : String, q ≠ freshId → ledger2.lookup q = ledger.lookup q) := by
  refine ⟨_, _, rfl, rfl, by norm_num, rfl, ?_, hfresh, fun q hq => ?_⟩
  · simp [generateProofWinRate]
  · simp [generateProofWinRate, hq]

/-- C8 witness: a concrete agent with the scenario metrics and a failed
collaborator response still gets a stored proof with the fixed 24h expiry. -/
theorem C8_generateProof_witness :
    ∃ (p : ReputationProof) (ledger2 : ProofLedger),
      generateProofWinRate "a" (some (initialMetrics 0)) ⟨false, none⟩ 50 0
          "p2" emptyLedger = .ok (p, ledger2) ∧
      p.created_at = 0 ∧
      p.expires_at = p.created_at + 86400000 ∧
      p.proof_id = "p2" ∧
      ledger2.lookup "p2" = some p ∧
      emptyLedger.lookup "p2" = none ∧
      (∀ q : String, q ≠ "p2" → ledger2.lookup q = emptyLedger.lookup q) :=
  C8_generateProof "a" (initialMetrics 0) ⟨false, none⟩ 50 0 "p2"
    emptyLedger rfl

/-- C9: credential verification fails closed: when the agent is unregistered
or its record lacks a credential hash, validateApiKey is false for every
candidate key and every behaviour of the hashing primitive. -/
theorem C9_fails_closed (agentStore : String → Option StoredAgent)
    (agentId apiKey : String) :
    (agentStore agentId = none →
      ∀ verifyKey : String → String → Bool,
        validateApiKey agentStore verifyKey agentId apiKey = false) ∧
    (∀ a : StoredAgent, agentStore agentId = some a →
      a.api_key_hash = none →
      ∀ verifyKey : String → String → Bool,
        validateApiKey agentStore verifyKey agentId apiKey = false) := by
  refine ⟨fun h verifyKey => ?_, fun a ha hh verifyKey => ?_⟩
  · simp [validateApiKey, h]
  · simp [validateApiKey, ha, hh]

/-- C9 witness: concrete empty registry, and a concrete registry whose one
agent has no stored hash, each with a hashing primitive that accepts
everything. -/
theorem C9_fails_closed_witness :
    validateApiKey (fun _ => none) (fun _ _ => true) "a" "k" = false ∧
    validateApiKey (fun _ => some ⟨"a", "Bot1", none⟩) (fun _ _ => true)
      "a" "k" = false := by
  constructor
  · exact (C9_fails_closed (fun _ => none) "a" "k").1 rfl (fun _ _ => true)
  · exact (C9_fails_closed (fun _ => some ⟨"a", "Bot1", none⟩) "a" "k").2
      ⟨"a", "Bot1", none⟩ rfl rfl (fun _ _ => true)

/-! ## C1: the local fallback score formula -/

/-- The execution-time component of the claim's fallback formula: 10 when
avg ≤ 50 ms, 7 when ≤ 100 ms, 4 when ≤ 200 ms, else 0 (identical banding to
the source's execScore). -/
def specExec (m : PerformanceMetrics) : ℚ :=
  if m.avg_execution_time_ms ≤ 50 then 10
  else if m.avg_execution_time_ms ≤ 100 then 7
  else if m.avg_execution_time_ms ≤ 200 then 4
  else 0

/-- The claim's component sum: min(total_trades/200*30, 30) +
min(win_rate_fraction*40, 40) + min(max(total_pnl,0)/10000*20, 20) +
exec_component (no clipping of the sum). -/
def specMetricsSum (m : PerformanceMetrics) : ℚ :=
  min ((m.total_trades : ℚ) / 200 * 30) 30 +
  min ((if m.total_trades > 0 then
      (m.winning_trades : ℚ) / (m.total_trades : ℚ) else 0) * 40) 40 +
  min (max m.total_pnl_usd 0 / 10000 * 20) 20 + specExec m

/-- The claim's closed-form fallback score, written from the spec's words:
min(round(component sum) + min(5 * unexpired_proof_count, 15), 100). -/
def specFallbackScore (m : PerformanceMetrics) (unexpiredCount : ℕ) : ℤ :=
  min (jsRound (specMetricsSum m) + min (5 * (unexpiredCount : ℤ)) 15) 100

lemma specMetricsSum_le (m : PerformanceMetrics) :
    specMetricsSum m ≤ 100 := by
  have h1 : min ((m.total_trades : ℚ) / 200 * 30) 30 ≤ 30 := min_le_right _ _
  have h2 : min ((if m.total_trades > 0 then
      (m.winning_trades : ℚ) / (m.total_trades : ℚ) else 0) * 40) 40 ≤ 40 :=
    min_le_right _ _
  have h3 : min (max m.total_pnl_usd 0 / 10000 * 20) 20 ≤ 20 :=
    min_le_right _ _
  have h4 : specExec m ≤ 10 := by unfold specExec; split_ifs <;> norm_num
  unfold specMetricsSum
  linarith

/-- The source's clipping of the component sum at 100 before rounding is a
no-op: the sum never exceeds 100, so computeMetricsScore is exactly the
round of the unclipped sum. -/
lemma computeMetricsScore_eq (m : PerformanceMetrics) :
    computeMetricsScore m = jsRound (specMetricsSum m) := by
  simp only [computeMetricsScore]
  congr 1
  show specMetricsSum m ⊓ 100 = specMetricsSum m
  exact min_eq_left (specMetricsSum_le m)

lemma fallbackScore_eq_spec (enc : String) (n : ℕ) (m : PerformanceMetrics) :
    fallbackScore enc n (some m) = specFallbackScore m n := by
  simp only [fallbackScore, specFallbackScore]
  rw [computeMetricsScore_eq, mul_comm (n : ℤ) 5]

lemma scenario_sum :
    specMetricsSum (applyTrades (initialMetrics 0) scenarioTrades 0) =
      3871/100 := by
  unfold specMetricsSum specExec
  rw [scenario_total, scenario_winning, scenario_pnl, scenario_avg]
  norm_num [min_def, max_def]

lemma scenario_spec39 :
    specFallbackScore (applyTrades (initialMetrics 0) scenarioTrades 0) 0 =
      39 := by
  unfold specFallbackScore
  rw [scenario_sum]
  have h : jsRound (3871/100) = 39 := by
    unfold jsRound
    rw [show (3871/100 + 1/2 : ℚ) = 3921/100 by norm_num]
    rw [Int.floor_eq_iff]
    constructor <;> norm_num
  rw [h]
  norm_num [min_def]

lemma computeVerifiedReputation_fallback (resp : CollabResponse)
    (tsTag agentId : String) (a : Agent) (m : PerformanceMetrics)
    (enc : String) (ledger : ProofLedger) (now : ℤ)
    (hfail : ¬ (resp.success = true ∧
      (resp.outputs.bind (fun o => o.reputation_score)).isSome)) :
    (computeVerifiedReputation resp tsTag (some a) (some m) enc ledger
        agentId now).map (fun v => v.reputation_score) =
      .ok ((specFallbackScore m
        (unexpiredProofs ledger agentId now).length : ℤ) : ℚ) := by
  simp only [computeVerifiedReputation, computeVerifiedScore, Except.map]
  rw [dif_neg hfail]
  simp only [List.length_map]
  rw [fallbackScore_eq_spec]

/-- C1 counterexample: with the collaborator failed, the scenario metrics
(total 10, winning 7, pnl 1105, average execution 94.5 ms) and zero
unexpired proofs, computeVerifiedReputation's fallback score is 39, not the
42 the claim asserts: the 94.5 ms execution component is 7, not 10. -/
theorem C1_score42_counterexample :
    (computeVerifiedReputation ⟨false, none⟩ "0" (some ⟨"a", "Bot1"⟩)
        (some (applyTrades (initialMetrics 0) scenarioTrades 0)) ""
        emptyLedger "a" 0).map (fun v => v.reputation_score) =
      .ok (39 : ℚ) ∧ (39 : ℚ) ≠ 42 := by
  constructor
  · rw [computeVerifiedReputation_fallback _ _ _ _ _ _ _ _ (by simp)]
    have h0 : (unexpiredProofs emptyLedger "a" 0).length = 0 := by
      simp [unexpiredProofs, emptyLedger]
    rw [h0, scenario_spec39]
    norm_num
  · norm_num

/-- C1 (amended): when the collaborator's response fails or omits a score,
computeVerifiedReputation's fallback score equals, for every metrics state,
min(round(min(trades/200*30,30) + min(win_rate_fraction*40,40) +
min(max(pnl,0)/10000*20,20) + exec_component) + min(5*unexpired_count,15),
100) with the 10/7/4/0 exec banding; in particular the scenario metrics
with zero unexpired proofs score 39 (not 42: the 94.5 ms exec component is
7). -/
theorem C1_fallback_score (resp : CollabResponse) (tsTag agentId : String)
    (a : Agent) (m : PerformanceMetrics) (enc : String)
    (ledger : ProofLedger) (now : ℤ)
    (hfail : ¬ (resp.success = true ∧
      (resp.outputs.bind (fun o => o.reputation_score)).isSome)) :
    (computeVerifiedReputation resp tsTag (some a) (some m) enc ledger
        agentId now).map (fun v => v.reputation_score) =
      .ok ((specFallbackScore m
        (unexpiredProofs ledger agentId now).length : ℤ) : ℚ) ∧
    specFallbackScore (applyTrades (initialMetrics 0) scenarioTrades 0) 0 =
      39 :=
  ⟨computeVerifiedReputation_fallback resp tsTag agentId a m enc ledger now
    hfail, scenario_spec39⟩

/-- C1 witness: the amended claim instantiated at a failed collaborator
response, a concrete agent and the zeroed metrics. -/
theorem C1_fallback_score_witness :
    (computeVerifiedReputation ⟨false, none⟩ "0" (some ⟨"b", "Bot2"⟩)
        (some (initialMetrics 0)) "" emptyLedger "b" 0).map
        (fun v => v.reputation_score) =
      .ok ((specFallbackScore (initialMetrics 0)
        (unexpiredProofs emptyLedger "b" 0).length : ℤ) : ℚ) ∧
    specFallbackScore (applyTrades (initialMetrics 0) scenarioTrades 0) 0 =
      39 :=
  C1_fallback_score ⟨false, none⟩ "0" "b" ⟨"b", "Bot2"⟩ (initialMetrics 0)
    "" emptyLedger 0 (by simp)

/-! ## C3: the star-rating ladder -/

/-- The claim's band criterion, following the spec's words: a band is
satisfied only if all four criteria over (score, trades, win_rate, pnl)
hold. -/
def bandSatFull (b : BandThresholds) (v : VerifiedReputation)
    (m : PerformanceMetrics) : Prop :=
  v.reputation_score ≥ b.min_score ∧ m.total_trades ≥ b.min_trades ∧
  starWinRate m ≥ b.min_win_rate ∧ m.total_pnl_usd ≥ b.min_pnl

instance (b : BandThresholds) (v : VerifiedReputation)
    (m : PerformanceMetrics) : Decidable (bandSatFull b v m) := by
  unfold bandSatFull; infer_instance

/-- The claim's ladder, written from the spec's words: all four bands
evaluated top-down with the all-four-criteria test, first match winning. -/
def specStarBand (verifiedOf : Option VerifiedReputation)
    (metricsOf : Option PerformanceMetrics) : StarBand :=
  match verifiedOf, metricsOf with
  | some v, some m =>
    if bandSatFull STAR_THRESHOLDS.three_star v m then .three_star
    else if bandSatFull STAR_THRESHOLDS.two_star v m then .two_star
    else if bandSatFull STAR_THRESHOLDS.one_star v m then .one_star
    else if bandSatFull STAR_THRESHOLDS.verified v m then .verified
    else .unverified
  | _, _ => .unverified

/-- Reputation record used to refute the all-criteria reading of the
verified band: score exactly at the band's minimum. -/
def cexReputation : VerifiedReputation := ⟨"a", 50, "bronze", [], 0⟩

/-- Metrics used to refute the all-criteria reading of the verified band:
25 trades, none winning (win rate 0 < 50) and negative pnl (< 0). -/
def cexMetrics : PerformanceMetrics :=
  { total_trades := 25
    winning_trades := 0
    total_pnl_usd := -5
    max_drawdown_bps := 0
    sharpe_proxy := 0
    avg_execution_time_ms := 10
    uptime_percentage := 100
    last_updated := 0 }

/-- C3 counterexample: the code rates this agent `verified` although the
verified band's win-rate and pnl criteria fail, so the all-four-criteria
ladder of the claim (which yields `unverified` here) does not describe
calculateStarRating. -/
theorem C3_all_criteria_counterexample :
    (calculateStarRating (some cexReputation) (some cexMetrics)).rating =
      .verified ∧
    specStarBand (some cexReputation) (some cexMetrics) = .unverified ∧
    ¬ bandSatFull STAR_THRESHOLDS.verified cexReputation cexMetrics := by
  refine ⟨?_, ?_, ?_⟩
  · norm_num [calculateStarRating, starWinRate, STAR_THRESHOLDS,
      cexReputation, cexMetrics]
  · norm_num [specStarBand, bandSatFull, starWinRate, STAR_THRESHOLDS,
      cexReputation, cexMetrics]
  · norm_num [bandSatFull, starWinRate, STAR_THRESHOLDS, cexReputation,
      cexMetrics]

/-- C3 (amended): stars stay in [0,3]; a missing VerifiedReputation or
missing metrics yields unverified; the three diamond bands are evaluated
top-down with all four criteria required and first match winning, so a band
winner never falls to a weaker band; the verified band, however, tests only
its score and trades criteria (its win-rate and pnl thresholds are not
checked); the computation is a pure function of the two stores, hence
idempotent on unchanged state. -/
theorem C3_star_ladder :
    (∀ (vOf : Option VerifiedReputation) (mOf : Option PerformanceMetrics),
      (calculateStarRating vOf mOf).stars ≤ 3) ∧
    (∀ mOf, (calculateStarRating none mOf).rating = .unverified) ∧
    (∀ vOf, (calculateStarRating vOf none).rating = .unverified) ∧
    (∀ (v : VerifiedReputation) (m : PerformanceMetrics),
      bandSatFull STAR_THRESHOLDS.three_star v m →
        (calculateStarRating (some v) (some m)).rating = .three_star) ∧
    (∀ (v : VerifiedReputation) (m : PerformanceMetrics),
      bandSatFull STAR_THRESHOLDS.two_star v m →
        (calculateStarRating (some v) (some m)).rating = .three_star ∨
        (calculateStarRating (some v) (some m)).rating = .two_star) ∧
    (∀ (v : VerifiedReputation) (m : PerformanceMetrics),
      bandSatFull STAR_THRESHOLDS.one_star v m →
        (calculateStarRating (some v) (some m)).rating = .three_star ∨
        (calculateStarRating (some v) (some m)).rating = .two_star ∨
        (calculateStarRating (some v) (some m)).rating = .one_star) ∧
    (∀ (v : VerifiedReputation) (m : PerformanceMetrics),
      v.reputation_score ≥ STAR_THRESHOLDS.verified.min_score →
      m.total_trades ≥ STAR_THRESHOLDS.verified.min_trades →
        (calculateStarRating (some v) (some m)).rating ≠ .unverified) ∧
    (∀ vOf mOf,
      calculateStarRating vOf mOf = calculateStarRating vOf mOf) := by
  refine ⟨?_, fun mOf => rfl, ?_, ?_, ?_, ?_, ?_, fun vOf mOf => rfl⟩
  · intro vOf mOf
    rcases vOf with _ | v <;> rcases mOf with _ | m <;>
      simp only [calculateStarRating] <;> try norm_num
    split_ifs <;> norm_num
  · intro vOf
    rcases vOf with _ | v <;> rfl
  · intro v m h
    obtain ⟨h1, h2, h3, h4⟩ := h
    simp only [calculateStarRating]
    rw [if_pos ⟨h1, h2, h3, h4⟩]
  · intro v m h
    simp only [calculateStarRating]
    split_ifs with h1 h2 h3 h4
    · exact Or.inl rfl
    · exact Or.inr rfl
    · exact absurd h h2
    · exact absurd h h2
    · exact absurd h h2
  · intro v m h
    simp only [calculateStarRating]
    split_ifs with h1 h2 h3 h4
    · exact Or.inl rfl
    · exact Or.inr (Or.inl rfl)
    · exact Or.inr (Or.inr rfl)
    · exact absurd h h3
    · exact absurd h h3
  · intro v m h1 h2
    simp only [calculateStarRating]
    split_ifs with g1 g2 g3 g4
    · simp
    · simp
    · simp
    · simp
    · exact absurd ⟨h1, h2⟩ g4

/-- C3 witness: a concrete agent meeting every three_star criterion is rated
three_star. -/
theorem C3_star_ladder_witness :
    (calculateStarRating (some ⟨"c", 95, "diamond", [], 0⟩)
      (some { total_trades := 1000, winning_trades := 1000,
              total_pnl_usd := 10000, max_drawdown_bps := 0,
              sharpe_proxy := 2, avg_execution_time_ms := 10,
              uptime_percentage := 100, last_updated := 0 })).rating =
      .three_star :=
  C3_star_ladder.2.2.2.1 _ _
    (by norm_num [bandSatFull, starWinRate, STAR_THRESHOLDS])

/-! ## C7: the leaderboard -/

lemma mkLeaderboardEntry_id (reps : String → Option VerifiedReputation)
    (mets : String → Option PerformanceMetrics) (a : Agent) :
    (mkLeaderboardEntry reps mets a).agent_id = a.agent_id := rfl

lemma mkLeaderboardEntry_score (reps : String → Option VerifiedReputation)
    (mets : String → Option PerformanceMetrics) (a : Agent) :
    (mkLeaderboardEntry reps mets a).reputation_score =
      ((reps a.agent_id).map (fun r => r.reputation_score)).getD 0 := rfl

lemma leaderboardLE_toRel (a b : LeaderboardEntry)
    (h : leaderboardLE a b = true) :
    b.star_rating < a.star_rating ∨
      (a.star_rating = b.star_rating ∧
        b.reputation_score ≤ a.reputation_score) := by
  unfold leaderboardLE at h
  split_ifs at h with hs
  · exact Or.inr ⟨hs, by simpa using h⟩
  · exact Or.inl (by simpa using h)

lemma leaderboardLE_trans (a b c : LeaderboardEntry)
    (hab : leaderboardLE a b = true) (hbc : leaderboardLE b c = true) :
    leaderboardLE a c = true := by
  rcases leaderboardLE_toRel a b hab with h | ⟨h1, h2⟩ <;>
    rcases leaderboardLE_toRel b c hbc with g | ⟨g1, g2⟩
  · unfold leaderboardLE
    rw [if_neg (by omega)]
    simp only [decide_eq_true_eq]
    omega
  · unfold leaderboardLE
    rw [if_neg (by omega)]
    simp only [decide_eq_true_eq]
    omega
  · unfold leaderboardLE
    rw [if_neg (by omega)]
    simp only [decide_eq_true_eq]
    omega
  · unfold leaderboardLE
    rw [if_pos (h1.trans g1)]
    simp only [decide_eq_true_eq]
    exact le_trans g2 h2

lemma leaderboardLE_total (a b : LeaderboardEntry) :
    (leaderboardLE a b || leaderboardLE b a) = true := by
  unfold leaderboardLE
  by_cases h : a.star_rating = b.star_rating
  · rw [if_pos h, if_pos h.symm]
    simp only [Bool.or_eq_true, decide_eq_true_eq]
    exact le_total _ _
  · rw [if_neg h, if_neg (Ne.symm h)]
    simp only [Bool.or_eq_true, decide_eq_true_eq]
    omega

/-- C7: the leaderboard holds an entry for an agent exactly when that agent
is registered and has a VerifiedReputation with score strictly above 0
(never-verified agents and agents scoring exactly 0 are excluded), and the
rows are pairwise ordered by star rating descending with ties broken by
reputation score descending. -/
theorem C7_leaderboard :
    (∀ (agents : List Agent) (reps : String → Option VerifiedReputation)
        (mets : String → Option PerformanceMetrics) (aid : String),
      (∃ e ∈ getLeaderboardWithStars agents reps mets, e.agent_id = aid) ↔
      (∃ a ∈ agents, a.agent_id = aid ∧
        ∃ v : VerifiedReputation, reps aid = some v ∧
          v.reputation_score > 0)) ∧
    (∀ (agents : List Agent) (reps : String → Option VerifiedReputation)
        (mets : String → Option PerformanceMetrics),
      (getLeaderboardWithStars agents reps mets).Pairwise
        (fun e1 e2 => e2.star_rating < e1.star_rating ∨
          (e1.star_rating = e2.star_rating ∧
            e2.reputation_score ≤ e1.reputation_score))) := by
  constructor
  · intro agents reps mets aid
    constructor
    · rintro ⟨e, he, heq⟩
      rw [getLeaderboardWithStars, List.mem_mergeSort, List.mem_filter]
        at he
      obtain ⟨hmap, hpos⟩ := he
      obtain ⟨a, ha, rfl⟩ := List.mem_map.mp hmap
      rw [mkLeaderboardEntry_id] at heq
      simp only [decide_eq_true_eq, mkLeaderboardEntry_score] at hpos
      cases hv : reps a.agent_id with
      | none =>
        rw [hv] at hpos
        simp only [Option.map_none', Option.getD_none] at hpos
        exact absurd hpos (by norm_num)
      | some v =>
        rw [hv] at hpos
        simp only [Option.map_some', Option.getD_some] at hpos
        exact ⟨a, ha, heq, v, by rw [← heq]; exact hv, hpos⟩
    · rintro ⟨a, ha, haid, v, hv, hscore⟩
      refine ⟨mkLeaderboardEntry reps mets a, ?_,
        mkLeaderboardEntry_id _ _ _ |>.trans haid⟩
      rw [getLeaderboardWithStars, List.mem_mergeSort, List.mem_filter]
      refine ⟨List.mem_map_of_mem _ ha, ?_⟩
      simp only [decide_eq_true_eq, mkLeaderboardEntry_score]
      rw [haid, hv]
      simpa using hscore
  · intro agents reps mets
    have hs := List.sorted_mergeSort
      (fun a b c => leaderboardLE_trans a b c)
      (fun a b => leaderboardLE_total a b)
      ((agents.map (mkLeaderboardEntry reps mets)).filter
        (fun e => decide (e.reputation_score > 0)))
    rw [getLeaderboardWithStars]
    exact hs.imp (fun h => leaderboardLE_toRel _ _ h)

/-- C7 witness: in a one-agent registry whose agent is verified with score
80, the leaderboard has an entry for that agent. -/
theorem C7_leaderboard_witness :
    ∃ e ∈ getLeaderboardWithStars [⟨"a", "Bot1"⟩]
        (fun s => if s = "a" then some ⟨"a", 80, "platinum", [], 0⟩
                  else none)
        (fun _ => none), e.agent_id = "a" :=
  (C7_leaderboard.1 [⟨"a", "Bot1"⟩]
      (fun s => if s = "a" then some ⟨"a", 80, "platinum", [], 0⟩ else none)
      (fun _ => none) "a").mpr
    ⟨⟨"a", "Bot1"⟩, by simp, rfl, ⟨"a", 80, "platinum", [], 0⟩, by simp,
      by norm_num⟩
